import Mathlib

/-!
Verification of the weather MCP client (`mcp_stdio_client.py`).

The client's routing logic is embedded shallowly:

* Python strings are Lean `String`s; `str.lower` / `str.upper` /
  `str.isalpha` / `str.strip` are modelled character-wise with
  `Char.toLower` / `Char.toUpper` / `Char.isAlpha` / `String.trim`
  (the inputs of interest are ASCII, where these agree with Python).
* The MCP session is a `Bool` (`self.session` present or not); raising a
  `RuntimeError` is `Except.error`, a normal return is `Except.ok`.
* The remote side is an oracle: `listTools` is the outcome of
  `session.list_tools()` (either the advertised tool-name list or a raised
  exception), and `callTool` maps an operation name and arguments to the
  outcome of `session.call_tool` (either a result object or a raised
  exception).
* A `call_tool` result object is `ToolResult`: it either has no `content`
  attribute (modelled with its `str()` rendering), a scalar `content`
  (its `str()` rendering), or a list `content` (the `str()` renderings of
  its items, in order).
* Besides the returned text, each embedded operation also returns the list
  of remote invocations it performed (operation name and argument mapping),
  so that theorems can talk about which remote call was made.
* Latitude/longitude literals are embedded as `ℚ`; the client never
  computes with them, it only copies them from the table into a call.
-/

/-- Python `str.lower` (ASCII): lowercase every character. -/
def pyLower (s : String) : String := String.mk (s.data.map Char.toLower)

/-- Python `str.upper` (ASCII): uppercase every character. -/
def pyUpper (s : String) : String := String.mk (s.data.map Char.toUpper)

/-- Python `str.isalpha` (ASCII): nonempty and all characters alphabetic. -/
def pyIsAlpha (s : String) : Bool := !s.data.isEmpty && s.data.all Char.isAlpha

/-- Python `str.strip`: drop surrounding whitespace. -/
def pyStrip (s : String) : String :=
  String.mk (((s.data.dropWhile Char.isWhitespace).reverse.dropWhile
    Char.isWhitespace).reverse)

/-- The argument mapping passed to `session.call_tool`. -/
inductive ToolArgs where
  | alertArgs (state : String)
  | forecastArgs (latitude longitude : ℚ)
  deriving DecidableEq

/-- The shape of a `session.call_tool` result object, as the client inspects
it: `hasattr(result, 'content')` and `isinstance(result.content, list)`.
Scalar values are carried as their `str()` renderings. -/
inductive ToolResult where
  | noContent (rendered : String)
  | scalarContent (rendered : String)
  | listContent (items : List String)
  deriving DecidableEq

/-- The result-normalisation common to `query_weather`,
`get_weather_forecast` and `get_weather_alerts`: a list `content` is
newline-joined in order, a scalar `content` is returned alone, and a result
without `content` is rendered with `str()`. -/
def toolResultText : ToolResult → String
  | .noContent rendered => rendered
  | .scalarContent rendered => rendered
  | .listContent items => String.intercalate "\n" items

/-- The message of the `RuntimeError` raised when no session is present. -/
def notConnectedMsg : String :=
  "Not connected to server. Call connect_to_weather_server() first."

/-- Python-dict lookup on a literal association list: `k in d` plus `d[k]`. -/
def dictLookup {α : Type} : List (String × α) → String → Option α
  | [], _ => none
  | (k, v) :: rest, s => if s = k then some v else dictLookup rest s

/-- The static ten-entry `location_coords` table of `query_weather`,
in source order. -/
def location_coords : List (String × ℚ × ℚ) :=
  [ ("beijing", 39.9042, 116.4074),
    ("new york", 40.7128, -74.0060),
    ("london", 51.5074, -0.1278),
    ("tokyo", 35.6762, 139.6503),
    ("san francisco", 37.7749, -122.4194),
    ("paris", 48.8566, 2.3522),
    ("sydney", -33.8688, 151.2093),
    ("los angeles", 34.0522, -118.2437),
    ("chicago", 41.8781, -87.6298),
    ("miami", 25.7617, -80.1918) ]

/-- The outcome of one client operation: `Except.error` models a raised
`RuntimeError`; `Except.ok` carries the returned text together with the
list of remote `call_tool` invocations performed. -/
abbrev ClientOutcome := Except String (String × List (String × ToolArgs))

/-- The f-string returned by `query_weather` for an unrecognized location. -/
def unrecognizedText (location : String) (availableTools : List String) : String :=
  "❓ Unable to query weather for \x27" ++ location ++ "\x27.\n\n" ++
  "Available options:\n" ++
  "1. For US weather alerts, use a 2-letter state code (e.g., \x27CA\x27, \x27NY\x27, \x27TX\x27)\n" ++
  "2. For weather forecasts, use one of these supported cities:\n   " ++
  String.intercalate ", " (location_coords.map Prod.fst) ++
  "\n\nAvailable tools on server: " ++ String.intercalate ", " availableTools

/-- `WeatherMCPClient.query_weather` (lines 60-127).  `connected` is
whether `self.session` is set, `listTools` the outcome of
`session.list_tools()`, `callTool` the remote-call oracle. -/
def query_weather (connected : Bool)
    (listTools : Except String (List String))
    (callTool : String → ToolArgs → Except String ToolResult)
    (location : String) : ClientOutcome :=
  if connected = false then
    .error notConnectedMsg
  else
    match listTools with
    | .error e => .ok ("❌ Error querying weather: " ++ e, [])
    | .ok availableTools =>
      if availableTools = [] then
        .ok ("No tools available on the server.", [])
      else if location.length = 2 ∧ pyIsAlpha (pyUpper location) = true
              ∧ "get_alerts" ∈ availableTools then
        let args := ToolArgs.alertArgs (pyUpper location)
        match callTool "get_alerts" args with
        | .error e =>
          .ok ("❌ Error querying weather: " ++ e, [("get_alerts", args)])
        | .ok result =>
          .ok (toolResultText result, [("get_alerts", args)])
      else
        match dictLookup location_coords (pyLower location) with
        | some (lat, lon) =>
          if "get_forecast" ∈ availableTools then
            let args := ToolArgs.forecastArgs lat lon
            match callTool "get_forecast" args with
            | .error e =>
              .ok ("❌ Error querying weather: " ++ e, [("get_forecast", args)])
            | .ok result =>
              .ok (toolResultText result, [("get_forecast", args)])
          else
            .ok (unrecognizedText location availableTools, [])
        | none =>
          .ok (unrecognizedText location availableTools, [])

/-- `WeatherMCPClient.get_weather_forecast` (lines 129-150). -/
def get_weather_forecast (connected : Bool)
    (callTool : String → ToolArgs → Except String ToolResult)
    (latitude longitude : ℚ) : ClientOutcome :=
  if connected = false then
    .error notConnectedMsg
  else
    let args := ToolArgs.forecastArgs latitude longitude
    match callTool "get_forecast" args with
    | .error e =>
      .ok ("❌ Error getting forecast: " ++ e, [("get_forecast", args)])
    | .ok result =>
      .ok (toolResultText result, [("get_forecast", args)])

/-- `WeatherMCPClient.get_weather_alerts` (lines 152-171): uppercases the
argument and calls `get_alerts` with it, with no validation. -/
def get_weather_alerts (connected : Bool)
    (callTool : String → ToolArgs → Except String ToolResult)
    (state_code : String) : ClientOutcome :=
  if connected = false then
    .error notConnectedMsg
  else
    let state := pyUpper state_code
    let args := ToolArgs.alertArgs state
    match callTool "get_alerts" args with
    | .error e =>
      .ok ("❌ Error getting alerts: " ++ e, [("get_alerts", args)])
    | .ok result =>
      .ok (toolResultText result, [("get_alerts", args)])

/-- `WeatherMCPClient.list_available_tools` (lines 173-194): raises when not
connected; otherwise returns the advertised tool names, or `[]` when the
listing call faults (the fault is printed, not raised). -/
def list_available_tools (connected : Bool)
    (listTools : Except String (List String)) : Except String (List String) :=
  if connected = false then
    .error notConnectedMsg
  else
    match listTools with
    | .error _ => .ok []
    | .ok tools => .ok tools

/-- The remote invocations performed by an operation (none when it raised). -/
def callsOf (r : ClientOutcome) : List (String × ToolArgs) :=
  match r with
  | .ok (_, calls) => calls
  | .error _ => []

/-- Whether an outcome is a normal return rather than a raised fault. -/
def isNormalReturn (r : ClientOutcome) : Bool :=
  match r with
  | .ok _ => true
  | .error _ => false

/-- A concrete remote oracle used to instantiate theorems on examples. -/
def demoOracle : String → ToolArgs → Except String ToolResult :=
  fun _ _ => .ok (ToolResult.scalarContent "sunny")

theorem isAlpha_toUpper (c : Char) (h : c.isAlpha = true) :
    (Char.toUpper c).isAlpha = true := by
  unfold Char.toUpper
  by_cases hcond : Char.toNat c ≥ 97 ∧ Char.toNat c ≤ 122
  · obtain ⟨h1, h2⟩ := hcond
    rw [if_pos ⟨h1, h2⟩]
    interval_cases hn : Char.toNat c <;> decide
  · rw [if_neg hcond]
    exact h

theorem pyLower_length (s : String) : (pyLower s).length = s.length := by
  show (s.data.map Char.toLower).length = s.data.length
  exact List.length_map _ _

theorem pyIsAlpha_pyUpper (s : String) (h : pyIsAlpha s = true) :
    pyIsAlpha (pyUpper s) = true := by
  dsimp only [pyIsAlpha, pyUpper] at h ⊢
  simp only [Bool.and_eq_true, Bool.not_eq_true', List.all_eq_true] at h ⊢
  obtain ⟨h1, h2⟩ := h
  refine ⟨by simpa using h1, ?_⟩
  intro c hc
  simp only [List.mem_map] at hc
  obtain ⟨a, ha, rfl⟩ := hc
  exact isAlpha_toUpper a (h2 a ha)

theorem dictLookup_mem {α : Type} (l : List (String × α)) (s : String) (v : α)
    (h : dictLookup l s = some v) : (s, v) ∈ l := by
  induction l with
  | nil => simp [dictLookup] at h
  | cons p rest ih =>
    obtain ⟨k, w⟩ := p
    rw [dictLookup] at h
    split at h
    · rename_i heq
      cases h
      subst heq
      exact List.mem_cons_self _ _
    · exact List.mem_cons_of_mem _ (ih h)

theorem location_coords_key_length : ∀ p ∈ location_coords, 5 ≤ p.1.length := by
  decide

theorem lookup_length_ne_two (location : String) (lat lon : ℚ)
    (h : dictLookup location_coords (pyLower location) = some (lat, lon)) :
    location.length ≠ 2 := by
  have hm := dictLookup_mem _ _ _ h
  have h5 := location_coords_key_length _ hm
  rw [pyLower_length] at h5
  omega

/-- C2: classification is a pure function of the input text, the static
lookup table and the advertised tool list: the remote invocation the client
resolves to is identical for any two remote-call oracles, i.e. it is
independent of everything except the input and the advertised tools. -/
theorem query_weather_classification_oracle_independent
    (connected : Bool) (listTools : Except String (List String))
    (f g : String → ToolArgs → Except String ToolResult) (location : String) :
    callsOf (query_weather connected listTools f location) =
      callsOf (query_weather connected listTools g location) := by
  cases connected
  · rfl
  · cases listTools with
    | error e => rfl
    | ok ts =>
      by_cases hts : ts = []
      · subst hts; rfl
      · by_cases hcond : location.length = 2 ∧ pyIsAlpha (pyUpper location) = true
            ∧ "get_alerts" ∈ ts
        · simp only [query_weather, hts, hcond, if_true]
          rcases f "get_alerts" (ToolArgs.alertArgs (pyUpper location)) with e | r <;>
            rcases g "get_alerts" (ToolArgs.alertArgs (pyUpper location)) with e2 | r2 <;>
            simp [callsOf]
        · simp only [query_weather, hts, hcond, if_false]
          rcases hlk : dictLookup location_coords (pyLower location) with _ | ⟨lat, lon⟩
          · simp [hlk, callsOf]
          · by_cases hft : "get_forecast" ∈ ts
            · simp only [hlk, hft, if_true]
              rcases f "get_forecast" (ToolArgs.forecastArgs lat lon) with e | r <;>
                rcases g "get_forecast" (ToolArgs.forecastArgs lat lon) with e2 | r2 <;>
                simp [callsOf]
            · simp [hlk, hft, callsOf]

/-- C3: a two-character alphabetic input, with the alert tool advertised,
resolves to a state-alert request: `query_weather` invokes `get_alerts`
exactly once, with the state argument equal to the input uppercased. -/
theorem query_weather_state_code_alert (location : String) (ts : List String)
    (f : String → ToolArgs → Except String ToolResult)
    (hlen : location.length = 2) (halpha : pyIsAlpha location = true)
    (halert : "get_alerts" ∈ ts) (hne : ts ≠ []) :
    callsOf (query_weather true (.ok ts) f location) =
      [("get_alerts", ToolArgs.alertArgs (pyUpper location))] := by
  have hg := pyIsAlpha_pyUpper location halpha
  simp only [query_weather, hne, hlen, hg, halert]
  rcases hf : f "get_alerts" (ToolArgs.alertArgs (pyUpper location)) with e | r <;>
    simp [hf, callsOf]

/-- C3 witness: input `"CA"` with both tools advertised invokes `get_alerts`
with state `"CA"`. -/
theorem query_weather_state_code_alert_witness :
    callsOf (query_weather true (.ok ["get_alerts", "get_forecast"]) demoOracle "CA") =
      [("get_alerts", ToolArgs.alertArgs "CA")] :=
  query_weather_state_code_alert "CA" ["get_alerts", "get_forecast"] demoOracle
    rfl rfl (by simp) (by simp)

/-- C4: the two-letter state-code test has priority over the city lookup:
for a two-character alphabetic input, when `get_alerts` is advertised the
resolved invocation is the alert call (regardless of the city table and of
whether `get_forecast` is advertised), and when `get_alerts` is not
advertised the input falls through to the unrecognized result. -/
theorem query_weather_state_code_precedence (location : String) (ts : List String)
    (f : String → ToolArgs → Except String ToolResult)
    (hlen : location.length = 2) (halpha : pyIsAlpha location = true)
    (hne : ts ≠ []) :
    ("get_alerts" ∈ ts →
      callsOf (query_weather true (.ok ts) f location) =
        [("get_alerts", ToolArgs.alertArgs (pyUpper location))]) ∧
    ("get_alerts" ∉ ts →
      query_weather true (.ok ts) f location =
        .ok (unrecognizedText location ts, [])) := by
  have hg := pyIsAlpha_pyUpper location halpha
  constructor
  · intro halert
    simp only [query_weather, hne, hlen, hg, halert]
    rcases hf : f "get_alerts" (ToolArgs.alertArgs (pyUpper location)) with e | r <;>
      simp [hf, callsOf]
  · intro hnal
    have hnone : dictLookup location_coords (pyLower location) = none := by
      rcases h : dictLookup location_coords (pyLower location) with _ | ⟨lat, lon⟩
      · rfl
      · exact absurd hlen (lookup_length_ne_two location lat lon h)
    simp [query_weather, hne, hnal, hnone]

/-- C4 witness: `"CA"` with both tools advertised resolves to the alert
call, and `"CA"` with only `get_forecast` advertised (alert not advertised)
falls through to the unrecognized result. -/
theorem query_weather_state_code_precedence_witness :
    callsOf (query_weather true (.ok ["get_alerts", "get_forecast"]) demoOracle "CA") =
        [("get_alerts", ToolArgs.alertArgs "CA")] ∧
    query_weather true (.ok ["get_forecast"]) demoOracle "CA" =
        .ok (unrecognizedText "CA" ["get_forecast"], []) :=
  ⟨(query_weather_state_code_precedence "CA" ["get_alerts", "get_forecast"]
      demoOracle rfl rfl (by simp)).1 (by simp),
   (query_weather_state_code_precedence "CA" ["get_forecast"]
      demoOracle rfl rfl (by simp)).2 (by simp)⟩

/-- C1 counterexample: the claim requires classification after lowercasing
AND trimming, but `query_weather` never trims.  The input `" Beijing "`
lowercases-and-trims to the table key `"beijing"` (whose coordinates are
(39.9042, 116.4074)) and the forecast tool is advertised, yet
`query_weather` performs no remote invocation at all and returns the
unrecognized-location text. -/
theorem query_weather_trim_counterexample :
    pyLower (pyStrip " Beijing ") = "beijing" ∧
    dictLookup location_coords "beijing" = some (39.9042, 116.4074) ∧
    query_weather true (.ok ["get_forecast"]) demoOracle " Beijing " =
      .ok (unrecognizedText " Beijing " ["get_forecast"], []) :=
  ⟨rfl, rfl, rfl⟩

/-- C1 (amended): for every input whose lowercasing (with no trimming;
`query_weather` applies `str.lower` only, trimming is done by the
interactive shell before the call) is exactly a key of the static table,
with the forecast tool advertised, `query_weather` resolves to a forecast
request and invokes `get_forecast` with exactly the latitude/longitude pair
stored in the table for that key. -/
theorem query_weather_city_lookup_lowercase_only
    (location : String) (ts : List String)
    (f : String → ToolArgs → Except String ToolResult) (lat lon : ℚ)
    (hne : ts ≠ [])
    (hlk : dictLookup location_coords (pyLower location) = some (lat, lon))
    (hft : "get_forecast" ∈ ts) :
    callsOf (query_weather true (.ok ts) f location) =
      [("get_forecast", ToolArgs.forecastArgs lat lon)] := by
  have hne2 := lookup_length_ne_two location lat lon hlk
  simp only [query_weather, hne, hne2, hlk, hft]
  simp only [false_and, if_false]
  rcases hf : f "get_forecast" (ToolArgs.forecastArgs lat lon) with e | r <;>
    simp [hf, callsOf]

/-- C1 witness: input `"Beijing"` with the forecast tool advertised invokes
`get_forecast` with the table coordinates (39.9042, 116.4074). -/
theorem query_weather_city_lookup_lowercase_only_witness :
    callsOf (query_weather true (.ok ["get_forecast"]) demoOracle "Beijing") =
      [("get_forecast", ToolArgs.forecastArgs 39.9042 116.4074)] :=
  query_weather_city_lookup_lowercase_only "Beijing" ["get_forecast"]
    demoOracle 39.9042 116.4074 (by simp) rfl (by simp)

/-- C5: result normalisation in `get_weather_forecast`: an ordered list
`content` is newline-joined in its original order (shown both for a general
list and for a two-element list), and a scalar `content` is returned
alone. -/
theorem forecast_result_shape_normalization
    (latitude longitude : ℚ) (items : List String) (s a b : String) :
    get_weather_forecast true (fun _ _ => .ok (ToolResult.listContent items))
        latitude longitude =
      .ok (String.intercalate "\n" items,
        [("get_forecast", ToolArgs.forecastArgs latitude longitude)]) ∧
    get_weather_forecast true (fun _ _ => .ok (ToolResult.listContent [a, b]))
        latitude longitude =
      .ok (a ++ "\n" ++ b,
        [("get_forecast", ToolArgs.forecastArgs latitude longitude)]) ∧
    get_weather_forecast true (fun _ _ => .ok (ToolResult.scalarContent s))
        latitude longitude =
      .ok (s, [("get_forecast", ToolArgs.forecastArgs latitude longitude)]) :=
  ⟨rfl, rfl, rfl⟩

/-- C6: with no session established, every query operation raises the
precondition `RuntimeError` (modelled as `Except.error notConnectedMsg`)
instead of dereferencing a missing session or connecting implicitly. -/
theorem operations_before_connect_raise
    (listTools : Except String (List String))
    (f : String → ToolArgs → Except String ToolResult)
    (location st : String) (lat lon : ℚ) :
    query_weather false listTools f location = .error notConnectedMsg ∧
    get_weather_forecast false f lat lon = .error notConnectedMsg ∧
    get_weather_alerts false f st = .error notConnectedMsg ∧
    list_available_tools false listTools = .error notConnectedMsg :=
  ⟨rfl, rfl, rfl, rfl⟩

/-- C7: once the session precondition holds, every fault of the remote
side is converted into a formatted error text: the three query operations
always return normally (for every oracle), and a raising oracle yields the
corresponding formatted error string. -/
theorem connected_faults_converted_to_text
    (listTools : Except String (List String))
    (f : String → ToolArgs → Except String ToolResult)
    (location st e : String) (lat lon : ℚ) :
    isNormalReturn (query_weather true listTools f location) = true ∧
    isNormalReturn (get_weather_forecast true f lat lon) = true ∧
    isNormalReturn (get_weather_alerts true f st) = true ∧
    query_weather true (.error e) f location =
      .ok ("❌ Error querying weather: " ++ e, []) ∧
    get_weather_forecast true (fun _ _ => .error e) lat lon =
      .ok ("❌ Error getting forecast: " ++ e,
        [("get_forecast", ToolArgs.forecastArgs lat lon)]) ∧
    get_weather_alerts true (fun _ _ => .error e) st =
      .ok ("❌ Error getting alerts: " ++ e,
        [("get_alerts", ToolArgs.alertArgs (pyUpper st))]) := by
  refine ⟨?_, ?_, ?_, rfl, rfl, rfl⟩
  · cases listTools with
    | error e2 => rfl
    | ok ts =>
      by_cases hts : ts = []
      · subst hts; rfl
      · by_cases hcond : location.length = 2 ∧ pyIsAlpha (pyUpper location) = true
            ∧ "get_alerts" ∈ ts
        · cases hf : f "get_alerts" (ToolArgs.alertArgs (pyUpper location)) <;>
            simp [query_weather, hts, hcond, hf, isNormalReturn]
        · rcases hlk : dictLookup location_coords (pyLower location) with _ | ⟨lat2, lon2⟩
          · simp [query_weather, hts, hcond, hlk, isNormalReturn]
          · by_cases hft : "get_forecast" ∈ ts
            · cases hf : f "get_forecast" (ToolArgs.forecastArgs lat2 lon2) <;>
                simp [query_weather, hts, hcond, hlk, hft, hf, isNormalReturn]
            · simp [query_weather, hts, hcond, hlk, hft, isNormalReturn]
  · cases hf : f "get_forecast" (ToolArgs.forecastArgs lat lon) <;>
      simp [get_weather_forecast, hf, isNormalReturn]
  · cases hf : f "get_alerts" (ToolArgs.alertArgs (pyUpper st)) <;>
      simp [get_weather_alerts, hf, isNormalReturn]

/-- C8: an input matching neither the state-code rule nor the city-table
rule yields the unrecognized result, which carries the original input text
unchanged and the full list of the ten known city names and of the
advertised tool names. -/
theorem query_weather_unrecognized_guidance (location : String) (ts : List String)
    (f : String → ToolArgs → Except String ToolResult)
    (hne : ts ≠ [])
    (hnostate : ¬(location.length = 2 ∧ pyIsAlpha (pyUpper location) = true
      ∧ "get_alerts" ∈ ts))
    (hnocity : dictLookup location_coords (pyLower location) = none
      ∨ "get_forecast" ∉ ts) :
    query_weather true (.ok ts) f location = .ok (unrecognizedText location ts, []) ∧
    unrecognizedText location ts =
      "❓ Unable to query weather for \x27" ++ location ++ "\x27.\n\n" ++
      "Available options:\n" ++
      "1. For US weather alerts, use a 2-letter state code (e.g., \x27CA\x27, \x27NY\x27, \x27TX\x27)\n" ++
      "2. For weather forecasts, use one of these supported cities:\n   " ++
      "beijing, new york, london, tokyo, san francisco, paris, sydney, los angeles, chicago, miami" ++
      "\n\nAvailable tools on server: " ++ String.intercalate ", " ts := by
  constructor
  · rcases hnocity with hnone | hnft
    · simp [query_weather, hne, hnostate, hnone]
    · rcases hlk : dictLookup location_coords (pyLower location) with _ | ⟨lat, lon⟩
      · simp [query_weather, hne, hnostate, hlk]
      · simp [query_weather, hne, hnostate, hlk, hnft]
  · unfold unrecognizedText
    rw [show String.intercalate ", " (location_coords.map Prod.fst) =
      "beijing, new york, london, tokyo, san francisco, paris, sydney, los angeles, chicago, miami" from rfl]

/-- C8 witness: input `"Atlantis"` with both tools advertised yields the
unrecognized result listing all ten cities and the advertised tools. -/
theorem query_weather_unrecognized_guidance_witness :
    query_weather true (.ok ["get_alerts", "get_forecast"]) demoOracle "Atlantis" =
      .ok (unrecognizedText "Atlantis" ["get_alerts", "get_forecast"], []) :=
  (query_weather_unrecognized_guidance "Atlantis" ["get_alerts", "get_forecast"]
    demoOracle (by simp) (by decide) (Or.inl rfl)).1

/-- C9: with a session but an empty advertised tool list, `query_weather`
returns the fixed text and performs no classification-dependent remote
invocation (the invocation list is empty), for every input. -/
theorem query_weather_empty_tools_short_circuit
    (f : String → ToolArgs → Except String ToolResult) (location : String) :
    query_weather true (.ok []) f location =
      .ok ("No tools available on the server.", []) := rfl

/-- C10: `get_weather_alerts` uppercases its argument and invokes
`get_alerts` with it, for every string, with no two-letter validation:
in particular `"foo"` is sent as state `"FOO"`. -/
theorem get_weather_alerts_uppercase_no_validation (state_code : String)
    (f : String → ToolArgs → Except String ToolResult) (r : ToolResult) :
    callsOf (get_weather_alerts true f state_code) =
      [("get_alerts", ToolArgs.alertArgs (pyUpper state_code))] ∧
    get_weather_alerts true (fun _ _ => .ok r) "foo" =
      .ok (toolResultText r, [("get_alerts", ToolArgs.alertArgs "FOO")]) := by
  constructor
  · cases hf : f "get_alerts" (ToolArgs.alertArgs (pyUpper state_code)) <;>
      simp [get_weather_alerts, hf, callsOf]
  · rfl
